import Mathlib

/-!
Shallow embedding of the evaluation harness in `main.py` of the
Resnext3d-for-video-classification repository: backend resolution (`main`,
lines 55-66), the timing helper `_time` (lines 207-210), the evaluation loop
`validata` (lines 145-205), the running statistics `AverageMeter`
(lines 212-233) and the progress reporting `ProgressMeter` (lines 235-249),
together with theorems settling the specification claims about them.
-/

namespace VideoEval

/-! ### Backend resolution (`main`, lines 55-66)

The script computes `args.cuda = not args.no_cuda and torch.cuda.is_available()`
and then asserts that `args.cuda` and `args.mkldnn` are not both set; otherwise
the active backend is GPU when `args.cuda`, MKLDNN when `args.mkldnn`, and
native CPU otherwise.  In the spec's vocabulary: `use_accelerator_requested`
is `not args.no_cuda`, `use_optimized_cpu_requested` is `args.mkldnn`, and
availability is `torch.cuda.is_available()`. -/

inductive Backend where
  | accelerator
  | optimizedCPU
  | plainCPU
deriving DecidableEq, Repr, Fintype

inductive ResolveResult where
  | ok (b : Backend)
  | configError
deriving DecidableEq, Repr

/-- Embedding of lines 55-66 of `main.py`: `cuda := accelReq && accelAvail`
(line 55), the assert on `cuda && mkldnn` (lines 57-59), and the three-way
backend choice (lines 61-66). -/
def resolve (accelReq optCpuReq accelAvail : Bool) : ResolveResult :=
  let cuda := accelReq && accelAvail
  if cuda && optCpuReq then .configError
  else if cuda then .ok .accelerator
  else if optCpuReq then .ok .optimizedCPU
  else .ok .plainCPU

/-! ### Time source (`_time`, lines 207-210)

`_time(use_cuda)` calls `torch.cuda.synchronize()` when `use_cuda` and then
reads the wall clock.  The clock model: `pending` is the total duration of
asynchronous backend work issued but not yet completed, `clock` is the
monotonic host clock.  `torch.cuda.synchronize()` blocks until all issued
work has completed, so on return the pending queue is empty and the host
clock has advanced past the completion of that work. -/

structure ClockState where
  pending : Nat
  clock : Nat
deriving DecidableEq, Repr

/-- Embedding of `torch.cuda.synchronize()`: blocks until all previously
issued asynchronous backend work has completed. -/
def cudaSynchronize (s : ClockState) : ClockState :=
  { pending := 0, clock := s.clock + s.pending }

/-- Embedding of `_time` (lines 207-210): synchronize iff `use_cuda`, then
read the clock.  Returns the clock state after the call and the timestamp. -/
def timeNow (use_cuda : Bool) (s : ClockState) : ClockState × Nat :=
  let s := if use_cuda then cudaSynchronize s else s
  (s, s.clock)

/-! ### Running statistics (`AverageMeter`, lines 212-233) -/

structure AverageMeter where
  name : String
  fmt : String
  val : ℚ
  avg : ℚ
  sum : ℚ
  count : ℕ
deriving DecidableEq, Repr

/-- `AverageMeter.reset` (lines 219-223). -/
def AverageMeter.reset (m : AverageMeter) : AverageMeter :=
  { m with val := 0, avg := 0, sum := 0, count := 0 }

/-- `AverageMeter.__init__` (lines 214-217): stores `name` and `fmt` and
calls `reset`. -/
def AverageMeter.make (name fmt : String) : AverageMeter :=
  AverageMeter.reset { name := name, fmt := fmt, val := 0, avg := 0, sum := 0, count := 0 }

/-- `AverageMeter.update` (lines 225-229): `val = v`; `sum += v * n`;
`count += n`; `avg = sum / count`. -/
def AverageMeter.update (m : AverageMeter) (v : ℚ) (n : ℕ := 1) : AverageMeter :=
  let sum := m.sum + v * (n : ℚ)
  let count := m.count + n
  { m with val := v, sum := sum, count := count, avg := sum / (count : ℚ) }

/-- A sequence of `update` calls applied in order. -/
def AverageMeter.applyUpdates (m : AverageMeter) (l : List (ℚ × ℕ)) : AverageMeter :=
  l.foldl (fun m p => m.update p.1 p.2) m

/-! ### Progress reporting (`ProgressMeter`, lines 235-249)

`_get_batch_fmtstr` computes `num_digits = len(str(num_batches // 1))` and
returns the format string `'[' + fmt + '/' + fmt.format(num_batches) + ']'`,
where `fmt` pads its decimal argument on the left with spaces to width
`num_digits`.  Python's `str` of a natural number is its decimal
representation; we embed it with a fuel-based digit renderer. -/

/-- Decimal digit characters of `n`, most significant first; `fuel` bounds
the recursion depth (any `fuel > n` is enough). -/
def decChars : ℕ → ℕ → List Char
  | 0, _ => []
  | fuel + 1, n =>
      if n < 10 then [Nat.digitChar n]
      else decChars fuel (n / 10) ++ [Nat.digitChar (n % 10)]

/-- Embedding of Python `str` on a natural number: its decimal string. -/
def pyStr (n : ℕ) : String := (decChars (n + 1) n).asString

/-- Embedding of `'{:Wd}'.format(n)`: decimal rendering of `n` left-padded
with spaces to width `W` (no truncation when the rendering is wider). -/
def pyFormatD (width n : ℕ) : String :=
  (List.replicate (width - (pyStr n).length) ' ').asString ++ pyStr n

/-- `num_digits` of `_get_batch_fmtstr` (line 247): `len(str(num_batches // 1))`. -/
def numDigitsOf (numBatches : ℕ) : ℕ := (pyStr (numBatches / 1)).length

/-- `_get_batch_fmtstr` (lines 246-249), as the function the returned format
string denotes: batch index to rendered `[idx/total]` field. -/
def getBatchFmtstr (numBatches : ℕ) : ℕ → String :=
  fun batch =>
    "[" ++ pyFormatD (numDigitsOf numBatches) batch ++ "/"
        ++ pyFormatD (numDigitsOf numBatches) numBatches ++ "]"

/-- `ProgressMeter.__init__` (lines 236-239): the batch format string is
computed once at construction and stored. -/
structure ProgressMeter where
  batch_fmtstr : ℕ → String
  meters : List AverageMeter
  pfx : String

/-- `ProgressMeter` constructor (lines 236-239). -/
def ProgressMeter.make (numBatches : ℕ) (meters : List AverageMeter)
    (pfx : String) : ProgressMeter :=
  { batch_fmtstr := getBatchFmtstr numBatches, meters := meters, pfx := pfx }

/-- The claim-side digit count: number of decimal digits of `n`, with a
minimum of one.  For `n ≥ 1` the digit count is `Nat.log 10 n + 1`. -/
def specDigitCount (n : ℕ) : ℕ := max 1 (Nat.log 10 n + 1)

/-! ### Batch inputs and backend conversion (`validata`, lines 181-189)

A tensor is modelled by the device holding its representation plus an
abstract payload, so that "left unchanged" is an actual equality.  The
sample dict carries `input = {video, audio}` and `target`. -/

inductive Device where
  | host
  | cudaDev
  | mkldnnDev
deriving DecidableEq, Repr

structure Tensor where
  device : Device
  data : ℚ
deriving DecidableEq, Repr

/-- `t.cuda()`: move the tensor to the accelerator, payload unchanged. -/
def Tensor.cuda (t : Tensor) : Tensor := { t with device := .cudaDev }

/-- `t.to_mkldnn()`: convert the tensor to the MKLDNN layout, payload
unchanged. -/
def Tensor.to_mkldnn (t : Tensor) : Tensor := { t with device := .mkldnnDev }

structure Inputs where
  video : Tensor
  audio : Tensor
deriving DecidableEq, Repr

structure Sample where
  input : Inputs
  target : Tensor
deriving DecidableEq, Repr

/-- Embedding of the conversion step, lines 183-189 of `validata`: under
`args.cuda` the `video`, `audio` and `target` tensors all move to the
accelerator; under `args.mkldnn` only `video` and `audio` are converted and
`target` is left as-is; otherwise nothing is touched. -/
def convertSample (cuda mkldnn : Bool) (s : Sample) : Sample :=
  if cuda then
    { input := { video := s.input.video.cuda, audio := s.input.audio.cuda },
      target := s.target.cuda }
  else if mkldnn then
    { input := { video := s.input.video.to_mkldnn, audio := s.input.audio.to_mkldnn },
      target := s.target }
  else s

/-! ### The evaluation loop (`validata`, lines 145-205)

The loop is embedded as a recursion over the (finite, single-pass) list of
samples the iterator yields.  The model and the loss are external
collaborators that may raise (`Except`).  The run records an event trace:
each batch fetch, each `_time` query with the flag it was passed, each
forward invocation with the gradient mode in force, and each emitted report
line.  An exception from the model or the loss ends the recursion at once
with the error; no later event is ever appended. -/

inductive Event where
  | timeQuery (wait : Bool)
  | fetch (i : ℕ)
  | fwd (i : ℕ) (gradOn : Bool)
  | report (i : ℕ)
deriving DecidableEq, Repr

structure LoopOut (ε : Type) where
  batch_time : AverageMeter
  data_time : AverageMeter
  losses : AverageMeter
  clk : ClockState
  events : List Event
  err : Option ε
deriving Repr

/-- The `for i, sample in enumerate(iterator)` body of `validata`
(lines 178-202), one batch at a time.  Arguments after the sample list:
batch index `i`, the `end` timestamp, the three meters and the clock state.
Per batch: `data_time.update(_time(cuda) - end)` (line 179), backend
conversion (lines 181-189), `model(inputs)` (line 191), `loss(output,
target)` (line 193) — the returned scalar is *not* recorded in the `losses`
meter, which the source never updates — then
`batch_time.update(_time(cuda) - end)`, `end = _time(cuda)` (lines 198-199)
and a report every `print_freq` batches (lines 201-202). -/
def evalLoop {ε : Type} (cuda mkldnn gradOn : Bool) (freq : ℕ)
    (model : Inputs → Except ε ℚ) (lossFn : ℚ → Tensor → Except ε ℚ) :
    List Sample → ℕ → ℕ → AverageMeter → AverageMeter → AverageMeter →
    ClockState → LoopOut ε
  | [], _, _, bt, dt, ls, clk =>
      { batch_time := bt, data_time := dt, losses := ls, clk := clk,
        events := [], err := none }
  | s :: rest, i, endT, bt, dt, ls, clk =>
      let t1 := timeNow cuda clk
      let dt1 := dt.update ((t1.2 - endT : ℕ) : ℚ)
      let sc := convertSample cuda mkldnn s
      match model sc.input with
      | .error e =>
          { batch_time := bt, data_time := dt1, losses := ls, clk := t1.1,
            events := [.fetch i, .timeQuery cuda, .fwd i gradOn], err := some e }
      | .ok out =>
        match lossFn out sc.target with
        | .error e =>
            { batch_time := bt, data_time := dt1, losses := ls, clk := t1.1,
              events := [.fetch i, .timeQuery cuda, .fwd i gradOn], err := some e }
        | .ok _loss_data =>
            let t2 := timeNow cuda t1.1
            let bt1 := bt.update ((t2.2 - endT : ℕ) : ℚ)
            let t3 := timeNow cuda t2.1
            let rep := if i % freq == 0 then [Event.report i] else []
            let tail := evalLoop cuda mkldnn gradOn freq model lossFn rest
              (i + 1) t3.2 bt1 dt1 ls t3.1
            { tail with
              events := [Event.fetch i, .timeQuery cuda, .fwd i gradOn,
                         .timeQuery cuda, .timeQuery cuda] ++ rep ++ tail.events }

structure ValidataOut (ε : Type) where
  out : LoopOut ε
  gradDuring : Bool
  gradAfter : Bool
deriving Repr

/-- Embedding of `validata` (lines 145-205).  The three meters are created
fresh (lines 163-165).  The body runs inside `with torch.no_grad():`
(line 176): gradient tracking is off for the whole loop, and the context
manager restores the prior gradient mode `gradIn` on exit — on normal
termination and equally when an exception propagates out of the block.
`end = _time(args.cuda)` (line 177) is the query before the first batch. -/
def validata {ε : Type} (cuda mkldnn : Bool) (freq : ℕ)
    (model : Inputs → Except ε ℚ) (lossFn : ℚ → Tensor → Except ε ℚ)
    (gradIn : Bool) (clk0 : ClockState) (samples : List Sample) : ValidataOut ε :=
  let gradInside := false
  let t0 := timeNow cuda clk0
  let lo := evalLoop cuda mkldnn gradInside freq model lossFn samples
    0 t0.2 (AverageMeter.make "Time" ":6.3f") (AverageMeter.make "Data" ":6.3f")
    (AverageMeter.make "Loss" ":.4e") t0.1
  { out := { lo with events := Event.timeQuery cuda :: lo.events },
    gradDuring := gradInside,
    gradAfter := gradIn }

/-! ### `main` control flow for the MKLDNN branch (lines 95-114)

Inside `if args.mkldnn:` the names bound by lines 96-100 are
`heads_configs`, `in_plane`, `num_classes`, `act_func` and
`mkldnn_head_fcl`.  The evaluation path (line 105) assigns
`mkldnn_head_fcl.eval()` to the model head; the training path (line 107)
references the name `mkldnn_head_fc`, which is never bound, so Python
raises a `NameError` there, before `train` is ever called. -/

inductive PyExn where
  | nameError (missing : String)
deriving DecidableEq, Repr

/-- Local names bound in the `if args.mkldnn:` block before the head
assignment (lines 96-100). -/
def mkldnnBranchLocals : List String :=
  ["heads_configs", "in_plane", "num_classes", "act_func", "mkldnn_head_fcl"]

/-- Python name resolution against a list of bound names. -/
def lookupName (env : List String) (x : String) : Except PyExn Unit :=
  if x ∈ env then .ok () else .error (.nameError x)

/-- The head assignment of the MKLDNN branch (lines 102-107): the
evaluation path reads `mkldnn_head_fcl`, the training path reads
`mkldnn_head_fc`. -/
def mkldnnHeadAssign (evaluate : Bool) : Except PyExn Unit :=
  if evaluate then lookupName mkldnnBranchLocals "mkldnn_head_fcl"
  else lookupName mkldnnBranchLocals "mkldnn_head_fc"

/-- Outcome of the `main` control flow, lines 52-114: the config assert
(lines 57-59), the MKLDNN head replacement (lines 95-107), then either the
evaluation path (lines 110-112) or the call to `train` (line 114). -/
inductive MainResult where
  | configError
  | nameError (missing : String)
  | evaluated
  | trained
deriving DecidableEq, Repr

/-- Control-flow skeleton of `main` (lines 52-114) over the flags
`no_cuda`, `mkldnn`, `evaluate` and the CUDA availability probe; dataset,
model and optimizer construction are external collaborators with no
bearing on which exit is taken. -/
def mainFlow (no_cuda mkldnn evaluate cudaAvail : Bool) : MainResult :=
  let cuda := !no_cuda && cudaAvail
  if cuda && mkldnn then .configError
  else
    let headStep : Except PyExn Unit :=
      if mkldnn then mkldnnHeadAssign evaluate else .ok ()
    match headStep with
    | .error (.nameError x) => .nameError x
    | .ok _ => if evaluate then .evaluated else .trained

/-! ### Success and failure of a single batch -/

/-- Batch `s` is processed without an exception: the model accepts the
converted inputs and the loss accepts the output and converted target. -/
def batchOk {ε : Type} (cuda mkldnn : Bool) (model : Inputs → Except ε ℚ)
    (lossFn : ℚ → Tensor → Except ε ℚ) (s : Sample) : Prop :=
  ∃ q r, model (convertSample cuda mkldnn s).input = Except.ok q
    ∧ lossFn q (convertSample cuda mkldnn s).target = Except.ok r

/-- Batch `s` raises: either the forward pass fails, or it succeeds and the
loss computation fails. -/
def batchRaises {ε : Type} (cuda mkldnn : Bool) (model : Inputs → Except ε ℚ)
    (lossFn : ℚ → Tensor → Except ε ℚ) (s : Sample) : Prop :=
  (∃ e, model (convertSample cuda mkldnn s).input = Except.error e)
  ∨ (∃ q e, model (convertSample cuda mkldnn s).input = Except.ok q
      ∧ lossFn q (convertSample cuda mkldnn s).target = Except.error e)

/-- The batch indices of the report lines in an event trace, in order. -/
def reportsOf (es : List Event) : List ℕ :=
  es.filterMap fun e => match e with | .report i => some i | _ => none

/-! ### Concrete fixtures used to instantiate the theorems -/

def sampleA : Sample :=
  { input := { video := { device := .host, data := 1 },
               audio := { device := .host, data := 10 } },
    target := { device := .host, data := 100 } }

def sampleB : Sample :=
  { input := { video := { device := .host, data := 2 },
               audio := { device := .host, data := 20 } },
    target := { device := .host, data := 200 } }

def sampleC : Sample :=
  { input := { video := { device := .host, data := 3 },
               audio := { device := .host, data := 30 } },
    target := { device := .host, data := 300 } }

def sampleD : Sample :=
  { input := { video := { device := .host, data := 4 },
               audio := { device := .host, data := 40 } },
    target := { device := .host, data := 400 } }

def sampleE : Sample :=
  { input := { video := { device := .host, data := 5 },
               audio := { device := .host, data := 50 } },
    target := { device := .host, data := 500 } }

/-- A model collaborator that always succeeds. -/
def modelConst : Inputs → Except Unit ℚ := fun _ => Except.ok 1

/-- A loss collaborator that always succeeds. -/
def lossConst : ℚ → Tensor → Except Unit ℚ := fun _ _ => Except.ok 2

/-- A model collaborator that raises exactly on `sampleB`'s video payload. -/
def modelFailsOnB : Inputs → Except Unit ℚ :=
  fun inp => if inp.video.data == 2 then Except.error () else Except.ok 0

/-- A model collaborator that always raises. -/
def modelFailAlways : Inputs → Except Unit ℚ := fun _ => Except.error ()

/-! ### Helper lemmas: running statistics -/

lemma applyUpdates_sum (m : AverageMeter) (l : List (ℚ × ℕ)) :
    (m.applyUpdates l).sum = m.sum + (l.map fun p => p.1 * (p.2 : ℚ)).sum := by
  induction l generalizing m with
  | nil => simp [AverageMeter.applyUpdates]
  | cons p l ih =>
      simp only [AverageMeter.applyUpdates, List.foldl_cons] at *
      rw [ih]
      simp [AverageMeter.update]
      ring

lemma applyUpdates_count (m : AverageMeter) (l : List (ℚ × ℕ)) :
    (m.applyUpdates l).count = m.count + (l.map Prod.snd).sum := by
  induction l generalizing m with
  | nil => simp [AverageMeter.applyUpdates]
  | cons p l ih =>
      simp only [AverageMeter.applyUpdates, List.foldl_cons] at *
      rw [ih]
      simp [AverageMeter.update]
      omega

lemma applyUpdates_concat (m : AverageMeter) (l : List (ℚ × ℕ)) (p : ℚ × ℕ) :
    m.applyUpdates (l ++ [p]) = (m.applyUpdates l).update p.1 p.2 := by
  simp [AverageMeter.applyUpdates, List.foldl_append]

lemma applyUpdates_val (m : AverageMeter) (l : List (ℚ × ℕ)) (h : l ≠ []) :
    (m.applyUpdates l).val = (l.getLast h).1 := by
  rcases List.eq_nil_or_concat l with rfl | ⟨L, p, rfl⟩
  · exact absurd rfl h
  · simp only [List.concat_eq_append] at h ⊢
    rw [applyUpdates_concat]
    simp [AverageMeter.update, List.getLast_append]

lemma applyUpdates_avg (m : AverageMeter) (l : List (ℚ × ℕ)) (h : l ≠ []) :
    (m.applyUpdates l).avg
      = (m.applyUpdates l).sum / ((m.applyUpdates l).count : ℚ) := by
  rcases List.eq_nil_or_concat l with rfl | ⟨L, p, rfl⟩
  · exact absurd rfl h
  · simp only [List.concat_eq_append] at h ⊢
    rw [applyUpdates_concat]
    simp [AverageMeter.update]

/-! ### Helper lemmas: decimal rendering -/

lemma decChars_length : ∀ (fuel n : ℕ), n < fuel →
    (decChars fuel n).length = Nat.log 10 n + 1 := by
  intro fuel
  induction fuel with
  | zero => intro n hn; exact absurd hn (Nat.not_lt_zero n)
  | succ fuel ih =>
      intro n hn
      by_cases h10 : n < 10
      · rw [decChars, if_pos h10]
        have hlog : Nat.log 10 n = 0 := Nat.log_eq_zero_iff.mpr (Or.inl h10)
        simp [hlog]
      · have hdiv : n / 10 < n := Nat.div_lt_self (by omega) (by omega)
        have hfuel : n / 10 < fuel := by omega
        have hlog : Nat.log 10 n = Nat.log 10 (n / 10) + 1 := by
          have h1 : Nat.log 10 (n / 10) = Nat.log 10 n - 1 := Nat.log_div_base 10 n
          have h2 : 0 < Nat.log 10 n := Nat.log_pos (by omega) (by omega)
          omega
        rw [decChars, if_neg h10]
        rw [List.length_append, ih (n / 10) hfuel, hlog]
        simp

lemma pyStr_length (n : ℕ) : (pyStr n).length = Nat.log 10 n + 1 := by
  have h := decChars_length (n + 1) n (Nat.lt_succ_self n)
  simpa [pyStr, String.length, List.asString] using h

lemma numDigitsOf_eq (n : ℕ) : numDigitsOf n = Nat.log 10 n + 1 := by
  simp [numDigitsOf, pyStr_length]

/-! ### Helper lemmas: event traces of the evaluation loop -/

lemma evalLoop_flag_mem {ε : Type} (cuda mkldnn gradOn : Bool) (freq : ℕ)
    (model : Inputs → Except ε ℚ) (lossFn : ℚ → Tensor → Except ε ℚ) :
    ∀ (samples : List Sample) (i endT : ℕ) (bt dt ls : AverageMeter)
      (clk : ClockState),
      (∀ w, Event.timeQuery w ∈
        (evalLoop cuda mkldnn gradOn freq model lossFn samples
          i endT bt dt ls clk).events → w = cuda)
      ∧ (∀ j g, Event.fwd j g ∈
        (evalLoop cuda mkldnn gradOn freq model lossFn samples
          i endT bt dt ls clk).events → g = gradOn) := by
  intro samples
  induction samples with
  | nil =>
      exact fun i endT bt dt ls clk =>
        ⟨fun w hw => by simp [evalLoop] at hw,
         fun j g hg => by simp [evalLoop] at hg⟩
  | cons s rest ih =>
      intro i endT bt dt ls clk
      constructor
      · intro w hw
        simp only [evalLoop] at hw
        cases hm : model (convertSample cuda mkldnn s).input with
        | error e => simp [hm] at hw; exact hw
        | ok q =>
            cases hl : lossFn q (convertSample cuda mkldnn s).target with
            | error e => simp [hm, hl] at hw; exact hw
            | ok r =>
                simp [hm, hl] at hw
                rcases hw with hw | hw
                · exact hw
                · exact (ih (i + 1) _ _ _ _ _).1 w hw
      · intro j g hg
        simp only [evalLoop] at hg
        cases hm : model (convertSample cuda mkldnn s).input with
        | error e => simp [hm] at hg; exact hg.2
        | ok q =>
            cases hl : lossFn q (convertSample cuda mkldnn s).target with
            | error e => simp [hm, hl] at hg; exact hg.2
            | ok r =>
                simp [hm, hl] at hg
                rcases hg with hg | hg
                · exact hg.2
                · exact (ih (i + 1) _ _ _ _ _).2 j g hg

lemma evalLoop_abort {ε : Type} (cuda mkldnn gradOn : Bool) (freq : ℕ)
    (model : Inputs → Except ε ℚ) (lossFn : ℚ → Tensor → Except ε ℚ) :
    ∀ (samples : List Sample) (k : ℕ) (hk : k < samples.length)
      (i endT : ℕ) (bt dt ls : AverageMeter) (clk : ClockState),
      batchRaises cuda mkldnn model lossFn (samples.get ⟨k, hk⟩) →
      (∀ j, j < k → ∀ (hj : j < samples.length),
        batchOk cuda mkldnn model lossFn (samples.get ⟨j, hj⟩)) →
      ((evalLoop cuda mkldnn gradOn freq model lossFn samples
          i endT bt dt ls clk).err.isSome = true)
      ∧ (∀ j, Event.fetch j ∈ (evalLoop cuda mkldnn gradOn freq model lossFn
          samples i endT bt dt ls clk).events → j ≤ i + k)
      ∧ (∀ j g, Event.fwd j g ∈ (evalLoop cuda mkldnn gradOn freq model lossFn
          samples i endT bt dt ls clk).events → j ≤ i + k)
      ∧ (∀ j, Event.report j ∈ (evalLoop cuda mkldnn gradOn freq model lossFn
          samples i endT bt dt ls clk).events → j < i + k) := by
  intro samples
  induction samples with
  | nil => intro k hk; exact absurd hk (by simp)
  | cons s rest ih =>
      intro k hk i endT bt dt ls clk hfail hok
      cases k with
      | zero =>
          have hfail0 : batchRaises cuda mkldnn model lossFn s := by
            simpa using hfail
          rcases hfail0 with ⟨e, hm⟩ | ⟨q, e, hm, hl⟩
          · refine ⟨by simp [evalLoop, hm], ?_, ?_, ?_⟩
            · intro j hj; simp [evalLoop, hm] at hj; omega
            · intro j g hj; simp [evalLoop, hm] at hj; omega
            · intro j hj; simp [evalLoop, hm] at hj
          · refine ⟨by simp [evalLoop, hm, hl], ?_, ?_, ?_⟩
            · intro j hj; simp [evalLoop, hm, hl] at hj; omega
            · intro j g hj; simp [evalLoop, hm, hl] at hj; omega
            · intro j hj; simp [evalLoop, hm, hl] at hj
      | succ k' =>
          have hok0 : batchOk cuda mkldnn model lossFn s := by
            have h := hok 0 (by omega) (by simp)
            simpa using h
          obtain ⟨q, r, hm, hl⟩ := hok0
          have hk' : k' < rest.length := by simpa using hk
          have hfail' : batchRaises cuda mkldnn model lossFn
              (rest.get ⟨k', hk'⟩) := by simpa using hfail
          have hok' : ∀ j, j < k' → ∀ (hj : j < rest.length),
              batchOk cuda mkldnn model lossFn (rest.get ⟨j, hj⟩) := by
            intro j hj hjl
            have h := hok (j + 1) (by omega) (by simp; omega)
            simpa using h
          refine ⟨?_, ?_, ?_, ?_⟩
          · simp only [evalLoop, hm, hl]
            exact (ih k' hk' (i + 1) _ _ _ _ _ hfail' hok').1
          · intro j hj
            simp [evalLoop, hm, hl] at hj
            rcases hj with hj | hj
            · omega
            · have h := (ih k' hk' (i + 1) _ _ _ _ _ hfail' hok').2.1 j hj
              omega
          · intro j g hj
            simp [evalLoop, hm, hl] at hj
            rcases hj with hj | hj
            · omega
            · have h := (ih k' hk' (i + 1) _ _ _ _ _ hfail' hok').2.2.1 j g hj
              omega
          · intro j hj
            simp [evalLoop, hm, hl] at hj
            rcases hj with hj | hj
            · omega
            · have h := (ih k' hk' (i + 1) _ _ _ _ _ hfail' hok').2.2.2 j hj
              omega

/-! ### Claim theorems -/

/-- C1, counterexample: the claim requires a configuration error for *all*
availability values when both backends are requested, but with the
accelerator unavailable `args.cuda` is `False` (line 55), the assert on
lines 57-59 does not fire, and resolution proceeds to the optimized CPU
backend. -/
theorem resolve_both_requested_unavailable_counterexample :
    resolve true true false = ResolveResult.ok Backend.optimizedCPU
    ∧ ¬ resolve true true false = ResolveResult.configError := by
  exact ⟨rfl, by decide⟩

/-- C1, amended: with both `use_accelerator_requested` and
`use_optimized_cpu_requested` true, backend resolution fails with the
configuration error exactly when the accelerator is available; when it is
unavailable no error is raised and resolution yields `OptimizedCPU`. -/
theorem resolve_both_requested_amended :
    ∀ avail : Bool, resolve true true avail
      = if avail then ResolveResult.configError
        else ResolveResult.ok Backend.optimizedCPU := by
  intro avail
  cases avail <;> rfl

/-- C4: requesting the accelerator without the optimized CPU backend while
the accelerator is unavailable resolves to the plain CPU backend — a
graceful fallback, not `Accelerator`, and no configuration error. -/
theorem resolve_accelerator_unavailable_fallback :
    resolve true false false = ResolveResult.ok Backend.plainCPU
    ∧ resolve true false false ≠ ResolveResult.ok Backend.accelerator
    ∧ resolve true false false ≠ ResolveResult.configError := by
  refine ⟨rfl, by decide, by decide⟩

/-- C3: after any nonempty sequence of `update(v, n)` calls with positive
weights on a freshly constructed meter, `avg` is the weighted mean of the
recorded values, `val` is the last recorded value, `sum` is the weighted
total and `count` the total weight.  The positivity of the weights is the
caller obligation that keeps Python's `sum / count` away from a zero
divisor; the final division is exactly `sum / count` with `count > 0`. -/
theorem averageMeter_weighted_mean (l : List (ℚ × ℕ)) (hne : l ≠ [])
    (hpos : ∀ p ∈ l, 0 < p.2) :
    ((AverageMeter.make "Loss" ":.4e").applyUpdates l).avg
        = (l.map fun p => p.1 * (p.2 : ℚ)).sum / (((l.map Prod.snd).sum : ℕ) : ℚ)
    ∧ ((AverageMeter.make "Loss" ":.4e").applyUpdates l).val = (l.getLast hne).1
    ∧ ((AverageMeter.make "Loss" ":.4e").applyUpdates l).sum
        = (l.map fun p => p.1 * (p.2 : ℚ)).sum
    ∧ ((AverageMeter.make "Loss" ":.4e").applyUpdates l).count
        = (l.map Prod.snd).sum := by
  have hsum := applyUpdates_sum (AverageMeter.make "Loss" ":.4e") l
  have hcount := applyUpdates_count (AverageMeter.make "Loss" ":.4e") l
  have havg := applyUpdates_avg (AverageMeter.make "Loss" ":.4e") l hne
  have hval := applyUpdates_val (AverageMeter.make "Loss" ":.4e") l hne
  rw [show (AverageMeter.make "Loss" ":.4e").sum = 0 from rfl, zero_add] at hsum
  rw [show (AverageMeter.make "Loss" ":.4e").count = 0 from rfl, Nat.zero_add]
    at hcount
  refine ⟨?_, hval, hsum, hcount⟩
  rw [havg, hsum, hcount]

/-- C3, witness: two weighted updates on a fresh meter. -/
theorem averageMeter_weighted_mean_witness :
    ([((3 : ℚ), (2 : ℕ)), ((5 : ℚ), (1 : ℕ))] : List (ℚ × ℕ)) ≠ []
    ∧ (∀ p ∈ ([((3 : ℚ), (2 : ℕ)), ((5 : ℚ), (1 : ℕ))] : List (ℚ × ℕ)), 0 < p.2)
    ∧ ((AverageMeter.make "Loss" ":.4e").applyUpdates
          [((3 : ℚ), (2 : ℕ)), ((5 : ℚ), (1 : ℕ))]).avg
        = ([((3 : ℚ), (2 : ℕ)), ((5 : ℚ), (1 : ℕ))].map
            fun p => p.1 * (p.2 : ℚ)).sum
          / ((([((3 : ℚ), (2 : ℕ)), ((5 : ℚ), (1 : ℕ))].map Prod.snd).sum : ℕ) : ℚ) :=
  ⟨by decide, by decide,
    (averageMeter_weighted_mean [((3 : ℚ), (2 : ℕ)), ((5 : ℚ), (1 : ℕ))]
      (by decide) (by decide)).1⟩

/-- C9: tensor conversion touches exactly the fields the backend needs.
Under the accelerator (`args.cuda`) all of `video`, `audio`, `target` move
to the accelerator with payloads preserved; under the optimized CPU backend
(`args.mkldnn`) only `video` and `audio` are converted and `target` is
returned unchanged; under plain CPU the sample is returned untouched. -/
theorem conversion_touches_only_needed_fields (s : Sample) :
    ((∀ mk : Bool,
        (convertSample true mk s).input.video.device = Device.cudaDev
        ∧ (convertSample true mk s).input.audio.device = Device.cudaDev
        ∧ (convertSample true mk s).target.device = Device.cudaDev
        ∧ (convertSample true mk s).input.video.data = s.input.video.data
        ∧ (convertSample true mk s).input.audio.data = s.input.audio.data
        ∧ (convertSample true mk s).target.data = s.target.data))
    ∧ ((convertSample false true s).input.video.device = Device.mkldnnDev
        ∧ (convertSample false true s).input.audio.device = Device.mkldnnDev
        ∧ (convertSample false true s).input.video.data = s.input.video.data
        ∧ (convertSample false true s).input.audio.data = s.input.audio.data
        ∧ (convertSample false true s).target = s.target)
    ∧ convertSample false false s = s := by
  exact ⟨fun mk => ⟨rfl, rfl, rfl, rfl, rfl, rfl⟩, ⟨rfl, rfl, rfl, rfl, rfl⟩, rfl⟩

/-- C10: with the MKLDNN backend selected and evaluation not requested, the
head replacement on line 107 reads the unbound name `mkldnn_head_fc` (the
binding on line 100 is `mkldnn_head_fcl`), so the run fails with a
`NameError` before `train` is called; for no flag combination does the
MKLDNN training path reach training. -/
theorem mkldnn_training_name_error (no_cuda cudaAvail : Bool)
    (hconf : (!no_cuda && cudaAvail) = false) :
    mainFlow no_cuda true false cudaAvail = MainResult.nameError "mkldnn_head_fc"
    ∧ ∀ nc ca : Bool, mainFlow nc true false ca ≠ MainResult.trained := by
  constructor
  · simp [mainFlow, hconf, mkldnnHeadAssign, lookupName, mkldnnBranchLocals]
  · intro nc ca
    cases nc <;> cases ca <;> decide

/-- C10, witness: `--mkldnn` without `--evaluate` on a host without CUDA. -/
theorem mkldnn_training_name_error_witness :
    ((!true && false) = false)
    ∧ mainFlow true true false false = MainResult.nameError "mkldnn_head_fc" :=
  ⟨by decide, (mkldnn_training_name_error true false (by decide)).1⟩

/-- C2: `_time(wait)` with `wait = true` first blocks until all previously
issued asynchronous backend work has completed (the pending queue is empty
afterwards) and only then reads the clock, returning the post-completion
clock value; with `wait = false` it reads the clock immediately and leaves
the state untouched.  Every `_time` query issued by the evaluation loop
carries `wait = args.cuda`, and for any successfully resolved backend
`args.cuda` is true exactly when that backend is the accelerator. -/
theorem timeSource_barrier_spec :
    (∀ s : ClockState, timeNow true s
        = ({ pending := 0, clock := s.clock + s.pending }, s.clock + s.pending))
    ∧ (∀ s : ClockState, timeNow false s = (s, s.clock))
    ∧ (∀ (ε : Type) (cuda mkldnn : Bool) (freq : ℕ)
        (model : Inputs → Except ε ℚ) (lossFn : ℚ → Tensor → Except ε ℚ)
        (gradIn : Bool) (clk : ClockState) (samples : List Sample) (w : Bool),
        Event.timeQuery w ∈
          (validata cuda mkldnn freq model lossFn gradIn clk samples).out.events
        → w = cuda)
    ∧ (∀ (accelReq optCpuReq avail : Bool) (b : Backend),
        resolve accelReq optCpuReq avail = ResolveResult.ok b →
        (b = Backend.accelerator ↔ (accelReq && avail) = true)) := by
  refine ⟨fun s => rfl, fun s => rfl, ?_, by decide⟩
  intro ε cuda mkldnn freq model lossFn gradIn clk samples w hw
  simp only [validata, List.mem_cons] at hw
  rcases hw with hw | hw
  · exact (Event.timeQuery.injEq w cuda).mp hw
  · exact (evalLoop_flag_mem cuda mkldnn false freq model lossFn samples
      0 _ _ _ _ _).1 w hw

/-- C2, witness: a concrete plain-CPU run issues only `wait = false`
queries, and a successful accelerator resolution has `args.cuda = true`. -/
theorem timeSource_barrier_witness :
    (Event.timeQuery false ∈
        (validata false false 1 modelConst lossConst true
          { pending := 0, clock := 0 } [sampleA]).out.events
      ∧ false = false)
    ∧ (resolve true false true = ResolveResult.ok Backend.accelerator
      ∧ (Backend.accelerator = Backend.accelerator ↔ (true && true) = true)) :=
  ⟨⟨by decide, timeSource_barrier_spec.2.2.1 Unit false false 1 modelConst
      lossConst true { pending := 0, clock := 0 } [sampleA] false (by decide)⟩,
   ⟨by decide, timeSource_barrier_spec.2.2.2 true false true Backend.accelerator
      (by decide)⟩⟩

/-- C5: on every backend the loop body runs with gradient tracking disabled
(every forward pass in the trace is tagged with gradient mode off), and the
`with torch.no_grad():` block restores the prior gradient mode on exit —
for any model and loss, including ones that raise, so equally on failure.
The model's inference mode here is the no-gradient mode the `no_grad`
context manager scopes; no parameter update is ever issued by the loop. -/
theorem no_grad_scoped {ε : Type} (cuda mkldnn : Bool) (freq : ℕ)
    (model : Inputs → Except ε ℚ) (lossFn : ℚ → Tensor → Except ε ℚ)
    (gradIn : Bool) (clk : ClockState) (samples : List Sample) :
    (∀ j g, Event.fwd j g ∈
        (validata cuda mkldnn freq model lossFn gradIn clk samples).out.events
      → g = false)
    ∧ (validata cuda mkldnn freq model lossFn gradIn clk samples).gradDuring
        = false
    ∧ (validata cuda mkldnn freq model lossFn gradIn clk samples).gradAfter
        = gradIn := by
  refine ⟨?_, rfl, rfl⟩
  intro j g hg
  simp only [validata, List.mem_cons] at hg
  rcases hg with hg | hg
  · exact absurd hg (by simp)
  · exact (evalLoop_flag_mem cuda mkldnn false freq model lossFn samples
      0 _ _ _ _ _).2 j g hg

/-- C5, witness: a failing run on the plain CPU backend still executes its
forward pass with gradients off and exits with the prior mode restored. -/
theorem no_grad_scoped_witness :
    Event.fwd 0 false ∈
      (validata false false 1 modelFailAlways lossConst true
        { pending := 0, clock := 0 } [sampleA]).out.events
    ∧ false = false
    ∧ (validata false false 1 modelFailAlways lossConst true
        { pending := 0, clock := 0 } [sampleA]).gradAfter = true :=
  ⟨by decide,
   (no_grad_scoped false false 1 modelFailAlways lossConst true
      { pending := 0, clock := 0 } [sampleA]).1 0 false (by decide),
   (no_grad_scoped false false 1 modelFailAlways lossConst true
      { pending := 0, clock := 0 } [sampleA]).2.2⟩

/-- C6: if batch `k` raises in the forward pass or the loss computation and
every earlier batch succeeds, the run ends with that error; no batch with
index above `k` is fetched or forwarded, and every report line in the trace
has index below `k` — no retry, no batch skipping. -/
theorem evaluation_aborts_on_exception {ε : Type} (cuda mkldnn : Bool)
    (freq : ℕ) (model : Inputs → Except ε ℚ) (lossFn : ℚ → Tensor → Except ε ℚ)
    (gradIn : Bool) (clk : ClockState) (samples : List Sample) (k : ℕ)
    (hk : k < samples.length)
    (hfail : batchRaises cuda mkldnn model lossFn (samples.get ⟨k, hk⟩))
    (hok : ∀ j, j < k → ∀ (hj : j < samples.length),
      batchOk cuda mkldnn model lossFn (samples.get ⟨j, hj⟩)) :
    ((validata cuda mkldnn freq model lossFn gradIn clk samples).out.err.isSome
        = true)
    ∧ (∀ j, Event.fetch j ∈
        (validata cuda mkldnn freq model lossFn gradIn clk samples).out.events
        → j ≤ k)
    ∧ (∀ j g, Event.fwd j g ∈
        (validata cuda mkldnn freq model lossFn gradIn clk samples).out.events
        → j ≤ k)
    ∧ (∀ j, Event.report j ∈
        (validata cuda mkldnn freq model lossFn gradIn clk samples).out.events
        → j < k) := by
  have h := evalLoop_abort cuda mkldnn false freq model lossFn samples k hk 0
    (timeNow cuda clk).2 (AverageMeter.make "Time" ":6.3f")
    (AverageMeter.make "Data" ":6.3f") (AverageMeter.make "Loss" ":.4e")
    (timeNow cuda clk).1 hfail hok
  refine ⟨?_, ?_, ?_, ?_⟩
  · simpa [validata] using h.1
  · intro j hj
    simp only [validata, List.mem_cons] at hj
    rcases hj with hj | hj
    · exact absurd hj (by simp)
    · have := h.2.1 j hj
      omega
  · intro j g hj
    simp only [validata, List.mem_cons] at hj
    rcases hj with hj | hj
    · exact absurd hj (by simp)
    · have := h.2.2.1 j g hj
      omega
  · intro j hj
    simp only [validata, List.mem_cons] at hj
    rcases hj with hj | hj
    · exact absurd hj (by simp)
    · have := h.2.2.2 j hj
      omega

/-- C6, witness: five batches, forward raises on batch index 1, the run
ends with the error. -/
theorem evaluation_aborts_on_exception_witness :
    1 < ([sampleA, sampleB, sampleC, sampleD, sampleE] : List Sample).length
    ∧ (validata false false 1 modelFailsOnB lossConst true
        { pending := 0, clock := 0 }
        [sampleA, sampleB, sampleC, sampleD, sampleE]).out.err.isSome = true := by
  refine ⟨by decide,
    (evaluation_aborts_on_exception false false 1 modelFailsOnB lossConst true
      { pending := 0, clock := 0 }
      [sampleA, sampleB, sampleC, sampleD, sampleE] 1 (by decide) ?_ ?_).1⟩
  · exact Or.inl ⟨(), rfl⟩
  · intro j hj hjl
    obtain rfl : j = 0 := by omega
    exact ⟨0, 2, rfl, rfl⟩

/-- C7, counterexample: on a concrete 3-batch run with `report_every = 1`
the loss meter ends with `count = 0`, not `count = 3` — `validata` computes
`loss_data` (line 193) but never calls `losses.update`, so the loss
accumulator is never fed. -/
theorem validata_losses_never_updated_counterexample :
    (validata false false 1 modelConst lossConst true
        { pending := 0, clock := 0 } [sampleA, sampleB, sampleC]).out.losses.count
      = 0
    ∧ ¬ ((validata false false 1 modelConst lossConst true
        { pending := 0, clock := 0 } [sampleA, sampleB, sampleC]).out.losses.count
      = 3) :=
  ⟨by decide, by decide⟩

/-- C7, amended: with 3 batches and `report_every = 1` the run emits
exactly the report lines for batch indices 0, 1, 2 in order, terminates
without error, and the `batch_time` and `data_time` meters end with
`count = 3`; the loss meter is never updated and ends with `count = 0`.
With 0 batches the loop ends immediately: no report line, no error, no
meter update (and, `count` staying 0, no division is ever evaluated). -/
theorem validata_three_batches_amended {ε : Type} (cuda mkldnn : Bool)
    (model : Inputs → Except ε ℚ) (lossFn : ℚ → Tensor → Except ε ℚ)
    (gradIn : Bool) (clk : ClockState) (samples : List Sample)
    (h3 : samples.length = 3)
    (hok : ∀ s, batchOk cuda mkldnn model lossFn s) :
    reportsOf (validata cuda mkldnn 1 model lossFn gradIn clk samples).out.events
        = [0, 1, 2]
    ∧ (validata cuda mkldnn 1 model lossFn gradIn clk samples).out.err = none
    ∧ (validata cuda mkldnn 1 model lossFn gradIn clk samples).out.batch_time.count
        = 3
    ∧ (validata cuda mkldnn 1 model lossFn gradIn clk samples).out.data_time.count
        = 3
    ∧ (validata cuda mkldnn 1 model lossFn gradIn clk samples).out.losses.count
        = 0
    ∧ reportsOf (validata cuda mkldnn 1 model lossFn gradIn clk []).out.events
        = []
    ∧ (validata cuda mkldnn 1 model lossFn gradIn clk []).out.err = none
    ∧ (validata cuda mkldnn 1 model lossFn gradIn clk []).out.batch_time.count
        = 0
    ∧ (validata cuda mkldnn 1 model lossFn gradIn clk []).out.data_time.count
        = 0
    ∧ (validata cuda mkldnn 1 model lossFn gradIn clk []).out.losses.count
        = 0 := by
  obtain ⟨a, b, c, rfl⟩ := List.length_eq_three.mp h3
  obtain ⟨qa, ra, hma, hla⟩ := hok a
  obtain ⟨qb, rb, hmb, hlb⟩ := hok b
  obtain ⟨qc, rc, hmc, hlc⟩ := hok c
  refine ⟨?_, ?_, ?_, ?_, ?_, ?_, ?_, ?_, ?_, ?_⟩ <;>
    simp [validata, evalLoop, hma, hla, hmb, hlb, hmc, hlc, reportsOf,
      AverageMeter.make, AverageMeter.reset, AverageMeter.update]

/-- C7, witness: a concrete 3-batch run with an always-succeeding model. -/
theorem validata_three_batches_witness :
    ([sampleA, sampleB, sampleC] : List Sample).length = 3
    ∧ reportsOf (validata false false 1 modelConst lossConst true
        { pending := 0, clock := 0 } [sampleA, sampleB, sampleC]).out.events
      = [0, 1, 2] :=
  ⟨by decide,
    (validata_three_batches_amended false false modelConst lossConst true
      { pending := 0, clock := 0 } [sampleA, sampleB, sampleC] (by decide)
      (fun s => ⟨1, 2, rfl, rfl⟩)).1⟩

/-- C8: the batch-index padding width of `_get_batch_fmtstr` equals the
number of decimal digits of `total_batches` with a minimum of one (it is
`Nat.log 10 total + 1`), it is stored once at `ProgressMeter` construction,
rendering indices 0, 9 and 99 against `total_batches = 100` yields
fixed-width 3-character index fields, and `total_batches = 0` yields width
1 with no fault. -/
theorem batch_fmtstr_padding :
    (∀ n : ℕ, numDigitsOf n = specDigitCount n)
    ∧ (∀ (nb : ℕ) (ms : List AverageMeter) (pf : String),
        (ProgressMeter.make nb ms pf).batch_fmtstr = getBatchFmtstr nb)
    ∧ getBatchFmtstr 100 0 = "[  0/100]"
    ∧ getBatchFmtstr 100 9 = "[  9/100]"
    ∧ getBatchFmtstr 100 99 = "[ 99/100]"
    ∧ (pyFormatD (numDigitsOf 100) 0).length = 3
    ∧ (pyFormatD (numDigitsOf 100) 9).length = 3
    ∧ (pyFormatD (numDigitsOf 100) 99).length = 3
    ∧ numDigitsOf 0 = 1 := by
  refine ⟨?_, fun nb ms pf => rfl, by decide, by decide, by decide, by decide,
    by decide, by decide, by decide⟩
  intro n
  rw [numDigitsOf_eq]
  simp [specDigitCount]

end VideoEval
